import Mathlib

/-
  Verification of the ErrorIQ MCP error-analysis service
  (src/backend/src/services/mcp.service.ts) against its specification.

  The TypeScript service is shallowly embedded below.  Strings are modelled
  as Lean `String` / `List Char`; the JavaScript regular expressions used by
  the classifier are alternations of literal substrings, of `a.*b` gaps
  (where `.` matches any character except the JS line terminators), and of
  one `a.?b` gap, and are embedded as executable Boolean matchers on the
  already case-folded character list.  `JSON.parse` and the Bytez network
  call are external collaborators and are modelled as explicit parameters.
-/

namespace ErrorIQ

/- ## Elementary string matching -/

/-- Does `pat` occur at the very start of `s`? -/
def begMatch : List Char → List Char → Bool
  | [], _ => true
  | _ :: _, [] => false
  | p :: ps, c :: cs => p == c && begMatch ps cs

/-- Does `pat` occur somewhere inside `s` (JS `String.prototype.includes`,
and a literal alternative of a JS regex under `test`)? -/
def hasSub (pat : List Char) : List Char → Bool
  | [] => begMatch pat []
  | c :: cs => begMatch pat (c :: cs) || hasSub pat cs

/-- Characters matched by `.` in a JavaScript regex without the `s` flag:
everything except the line terminators LF, CR, U+2028, U+2029. -/
def isLineChar (c : Char) : Bool :=
  !(c == Char.ofNat 10 || c == Char.ofNat 13 ||
    c == Char.ofNat 8232 || c == Char.ofNat 8233)

/-- Consume the literal `pat` from the front of `s`, returning the rest. -/
def consume : List Char → List Char → Option (List Char)
  | [], s => some s
  | _ :: _, [] => none
  | p :: ps, c :: cs => if p == c then consume ps cs else none

/-- Match `.*b` at the front of `s`: some (possibly empty) run of
non-line-terminator characters followed by the literal `b`. -/
def dotStarThen (b : List Char) : List Char → Bool
  | [] => begMatch b []
  | c :: cs => begMatch b (c :: cs) || (isLineChar c && dotStarThen b cs)

/-- Match `a.*b` at the front of `s`. -/
def seqAt (a b : List Char) (s : List Char) : Bool :=
  match consume a s with
  | some rest => dotStarThen b rest
  | none => false

/-- JS regex alternative `a.*b` under `test`: does `a`, then any
non-line-terminator gap, then `b`, occur anywhere in `s`? -/
def hasSeq (a b : List Char) : List Char → Bool
  | [] => seqAt a b []
  | c :: cs => seqAt a b (c :: cs) || hasSeq a b cs

/-- Match `a.?b` at the front of `s`: `a`, at most one non-line-terminator
character, then `b`. -/
def optAt (a b : List Char) (s : List Char) : Bool :=
  match consume a s with
  | some rest =>
    begMatch b rest ||
      (match rest with
       | [] => false
       | c :: cs => isLineChar c && begMatch b cs)
  | none => false

/-- JS regex alternative `a.?b` under `test`, anywhere in `s`. -/
def hasOptGap (a b : List Char) : List Char → Bool
  | [] => optAt a b []
  | c :: cs => optAt a b (c :: cs) || hasOptGap a b cs

/-- Case folding applied by `toLowerCase()` before matching.  The service's
patterns and the inputs of interest are ASCII, which `Char.toLower` folds
exactly as JavaScript does. -/
def jsLower (s : List Char) : List Char := s.map Char.toLower

/- ## Data model (mcp.service.ts types) -/

/-- `ErrorType` from mcp.service.ts. -/
inductive ErrorType
  | null_pointer
  | api_timeout
  | auth_failure
  | db_error
  | cors_error
  | memory_leak
  | rate_limit
  | websocket_error
  | third_party_failure
  | config_error
  | unknown
deriving DecidableEq

/-- `ErrorCategory` from mcp.service.ts. -/
inductive ErrorCategory
  | frontend
  | backend
  | database
  | infrastructure
  | third_party
deriving DecidableEq

/-- The severity levels `'low' | 'medium' | 'high' | 'critical'`. -/
inductive Severity
  | low
  | medium
  | high
  | critical
deriving DecidableEq

/-- `ErrorContext` from mcp.service.ts.  Optional fields are `Option`;
`metadata` is an opaque key/value list. -/
structure ErrorContext where
  message : String
  stack : Option String
  file : Option String
  line : Option Nat
  column : Option Nat
  environment : Option String
  userId : Option String
  sessionId : Option String
  timestamp : Option String
  metadata : List (String × String)
deriving DecidableEq

/-- The `suggestedFix` record of an `ErrorAnalysis`.  `confidence` is an
`Int` because a parsed external response may carry any number. -/
structure SuggestedFix where
  code : String
  description : String
  confidence : Int
deriving DecidableEq

/-- TS `Partial<ErrorAnalysis>` as produced by the two advice strategies:
every advice field may be absent. -/
structure AnalysisDraft where
  rootCause : Option String
  explanation : Option String
  suggestedFix : Option SuggestedFix
  preventionTips : Option (List String)
  similarPatterns : Option (List String)
deriving DecidableEq

/-- The `estimatedImpact` record of an `ErrorAnalysis`. -/
structure EstimatedImpact where
  affectedUsers : Nat
  sessions : Nat
  revenue : Nat
  regionsAffected : List String
deriving DecidableEq

/-- `ErrorAnalysis` from mcp.service.ts: the assembled analysis result. -/
structure ErrorAnalysis where
  errorType : ErrorType
  category : ErrorCategory
  severity : Severity
  rootCause : String
  explanation : String
  suggestedComponents : List String
  suggestedFix : SuggestedFix
  preventionTips : List String
  similarPatterns : List String
  estimatedImpact : EstimatedImpact
deriving DecidableEq

/- ## ERROR_PATTERNS (mcp.service.ts lines 70-125) -/

/-- Regex `/cannot read property|undefined is not|null is not|typeerror.*undefined|typeerror.*null/i`. -/
def patNullPointer (s : List Char) : Bool :=
  hasSub "cannot read property".data s || hasSub "undefined is not".data s ||
  hasSub "null is not".data s || hasSeq "typeerror".data "undefined".data s ||
  hasSeq "typeerror".data "null".data s

/-- Regex `/timeout|econnreset|etimedout|gateway timeout|502|504|econnrefused/i`. -/
def patApiTimeout (s : List Char) : Bool :=
  hasSub "timeout".data s || hasSub "econnreset".data s ||
  hasSub "etimedout".data s || hasSub "gateway timeout".data s ||
  hasSub "502".data s || hasSub "504".data s || hasSub "econnrefused".data s

/-- Regex `/unauthorized|forbidden|401|403|jwt|token.*expired|invalid.*token|authentication/i`. -/
def patAuthFailure (s : List Char) : Bool :=
  hasSub "unauthorized".data s || hasSub "forbidden".data s ||
  hasSub "401".data s || hasSub "403".data s || hasSub "jwt".data s ||
  hasSeq "token".data "expired".data s || hasSeq "invalid".data "token".data s ||
  hasSub "authentication".data s

/-- Regex `/database|mongodb|postgres|mysql|connection pool|query failed|deadlock/i`. -/
def patDbError (s : List Char) : Bool :=
  hasSub "database".data s || hasSub "mongodb".data s ||
  hasSub "postgres".data s || hasSub "mysql".data s ||
  hasSub "connection pool".data s || hasSub "query failed".data s ||
  hasSub "deadlock".data s

/-- Regex `/cors|cross-origin|access-control-allow|blocked by cors/i`. -/
def patCorsError (s : List Char) : Bool :=
  hasSub "cors".data s || hasSub "cross-origin".data s ||
  hasSub "access-control-allow".data s || hasSub "blocked by cors".data s

/-- Regex `/memory|heap|out of memory|allocation failed|gc overhead/i`. -/
def patMemoryLeak (s : List Char) : Bool :=
  hasSub "memory".data s || hasSub "heap".data s ||
  hasSub "out of memory".data s || hasSub "allocation failed".data s ||
  hasSub "gc overhead".data s

/-- Regex `/rate limit|too many requests|429|throttl/i`. -/
def patRateLimit (s : List Char) : Bool :=
  hasSub "rate limit".data s || hasSub "too many requests".data s ||
  hasSub "429".data s || hasSub "throttl".data s

/-- Regex `/websocket|socket.*closed|connection.*lost|ws:/i`. -/
def patWebsocketError (s : List Char) : Bool :=
  hasSub "websocket".data s || hasSeq "socket".data "closed".data s ||
  hasSeq "connection".data "lost".data s || hasSub "ws:".data s

/-- Regex `/stripe|twilio|sendgrid|aws|s3|cloudinary|third.?party/i`. -/
def patThirdParty (s : List Char) : Bool :=
  hasSub "stripe".data s || hasSub "twilio".data s ||
  hasSub "sendgrid".data s || hasSub "aws".data s || hasSub "s3".data s ||
  hasSub "cloudinary".data s || hasOptGap "third".data "party".data s

/-- Regex `/config|environment|env.*undefined|missing.*variable|not configured/i`. -/
def patConfigError (s : List Char) : Bool :=
  hasSub "config".data s || hasSub "environment".data s ||
  hasSeq "env".data "undefined".data s ||
  hasSeq "missing".data "variable".data s || hasSub "not configured".data s

/-- One entry of `ERROR_PATTERNS`: a pattern matcher, an ErrorType and an
ErrorCategory. -/
structure ErrorRule where
  pattern : List Char → Bool
  type : ErrorType
  category : ErrorCategory

/-- The ordered rule list `ERROR_PATTERNS` (mcp.service.ts lines 70-125),
in source order. -/
def ERROR_PATTERNS : List ErrorRule :=
  [⟨patNullPointer, ErrorType.null_pointer, ErrorCategory.frontend⟩,
   ⟨patApiTimeout, ErrorType.api_timeout, ErrorCategory.backend⟩,
   ⟨patAuthFailure, ErrorType.auth_failure, ErrorCategory.backend⟩,
   ⟨patDbError, ErrorType.db_error, ErrorCategory.database⟩,
   ⟨patCorsError, ErrorType.cors_error, ErrorCategory.frontend⟩,
   ⟨patMemoryLeak, ErrorType.memory_leak, ErrorCategory.infrastructure⟩,
   ⟨patRateLimit, ErrorType.rate_limit, ErrorCategory.backend⟩,
   ⟨patWebsocketError, ErrorType.websocket_error, ErrorCategory.frontend⟩,
   ⟨patThirdParty, ErrorType.third_party_failure, ErrorCategory.third_party⟩,
   ⟨patConfigError, ErrorType.config_error, ErrorCategory.infrastructure⟩]

/- ## Classifier (MCPService.identifyErrorType, lines 169-179) -/

/-- First rule of `rs` whose pattern matches `s`, with its type/category. -/
def findRule : List ErrorRule → List Char → Option (ErrorType × ErrorCategory)
  | [], _ => none
  | r :: rs, s => if r.pattern s then some (r.type, r.category) else findRule rs s

/-- The string tested by `identifyErrorType`:
`` `${errorMessage} ${stackTrace || ''}`.toLowerCase() ``. -/
def combinedInput (errorMessage : String) (stackTrace : Option String) : List Char :=
  jsLower ((errorMessage ++ " " ++ stackTrace.getD "").data)

/-- `MCPService.identifyErrorType` (mcp.service.ts lines 169-179): first
matching rule wins; no match yields `(unknown, frontend)`. -/
def identifyErrorType (errorMessage : String) (stackTrace : Option String) :
    ErrorType × ErrorCategory :=
  match findRule ERROR_PATTERNS (combinedInput errorMessage stackTrace) with
  | some tc => tc
  | none => (ErrorType.unknown, ErrorCategory.frontend)

/- ## Severity resolver (MCPService.calculateSeverity, lines 184-211) -/

/-- `context.file?.includes(sub)` coerced to a condition: an absent file is
`undefined`, which is falsy. -/
def jsOptIncludes (o : Option String) (sub : String) : Bool :=
  match o with
  | some s => hasSub sub.data s.data
  | none => false

/-- The static `severityMap` table local to `calculateSeverity`. -/
def severityMap : ErrorType → Severity
  | ErrorType.null_pointer => Severity.high
  | ErrorType.api_timeout => Severity.high
  | ErrorType.auth_failure => Severity.critical
  | ErrorType.db_error => Severity.critical
  | ErrorType.cors_error => Severity.medium
  | ErrorType.memory_leak => Severity.high
  | ErrorType.rate_limit => Severity.medium
  | ErrorType.websocket_error => Severity.medium
  | ErrorType.third_party_failure => Severity.high
  | ErrorType.config_error => Severity.medium
  | ErrorType.unknown => Severity.medium

/-- `MCPService.calculateSeverity`: a sensitive file path forces `critical`,
otherwise the per-type default applies. -/
def calculateSeverity (errorType : ErrorType) (context : ErrorContext) : Severity :=
  if jsOptIncludes context.file "checkout" || jsOptIncludes context.file "payment" ||
      jsOptIncludes context.file "auth" then
    Severity.critical
  else
    severityMap errorType

/- ## Component recommendations (COMPONENT_MAP, lines 128-140, and
MCPService.getSuggestedComponents, lines 216-218) -/

/-- The own properties of the `COMPONENT_MAP` object literal. -/
def COMPONENT_MAP : ErrorType → List String
  | ErrorType.null_pointer => ["UserJourney", "StackTrace", "SimilarErrors", "SuggestedFix"]
  | ErrorType.api_timeout => ["ErrorTimeline", "InfrastructureHealth", "ImpactMetrics", "QuickActions"]
  | ErrorType.auth_failure => ["ImpactMetrics", "UserJourney", "SuggestedFix", "QuickActions"]
  | ErrorType.db_error => ["InfrastructureHealth", "ErrorTimeline", "SimilarErrors", "QuickActions"]
  | ErrorType.cors_error => ["StackTrace", "SuggestedFix", "RelatedDocs"]
  | ErrorType.memory_leak => ["ErrorTimeline", "InfrastructureHealth", "ImpactMetrics"]
  | ErrorType.rate_limit => ["ErrorTimeline", "ImpactMetrics", "QuickActions"]
  | ErrorType.websocket_error => ["ErrorTimeline", "InfrastructureHealth", "UserJourney"]
  | ErrorType.third_party_failure => ["InfrastructureHealth", "ErrorTimeline", "QuickActions", "SimilarErrors"]
  | ErrorType.config_error => ["StackTrace", "SuggestedFix", "RelatedDocs"]
  | ErrorType.unknown => ["StackTrace", "ErrorTimeline", "ImpactMetrics", "SimilarErrors"]

/-- `MCPService.getSuggestedComponents` on a well-typed `ErrorType`: every
enumeration value is an own key of `COMPONENT_MAP`, and a JS array is
truthy, so `COMPONENT_MAP[errorType] || COMPONENT_MAP.unknown` is just the
own entry. -/
def getSuggestedComponents (errorType : ErrorType) : List String :=
  COMPONENT_MAP errorType

/-- The JS property-name string of each `ErrorType` (the keys of the
`COMPONENT_MAP` object literal). -/
def errorTypeKey : ErrorType → String
  | ErrorType.null_pointer => "null_pointer"
  | ErrorType.api_timeout => "api_timeout"
  | ErrorType.auth_failure => "auth_failure"
  | ErrorType.db_error => "db_error"
  | ErrorType.cors_error => "cors_error"
  | ErrorType.memory_leak => "memory_leak"
  | ErrorType.rate_limit => "rate_limit"
  | ErrorType.websocket_error => "websocket_error"
  | ErrorType.third_party_failure => "third_party_failure"
  | ErrorType.config_error => "config_error"
  | ErrorType.unknown => "unknown"

/-- Inverse of `errorTypeKey`: which `ErrorType`, if any, owns the string
key `k` in `COMPONENT_MAP`. -/
def keyToErrorType (k : String) : Option ErrorType :=
  if k = "null_pointer" then some ErrorType.null_pointer
  else if k = "api_timeout" then some ErrorType.api_timeout
  else if k = "auth_failure" then some ErrorType.auth_failure
  else if k = "db_error" then some ErrorType.db_error
  else if k = "cors_error" then some ErrorType.cors_error
  else if k = "memory_leak" then some ErrorType.memory_leak
  else if k = "rate_limit" then some ErrorType.rate_limit
  else if k = "websocket_error" then some ErrorType.websocket_error
  else if k = "third_party_failure" then some ErrorType.third_party_failure
  else if k = "config_error" then some ErrorType.config_error
  else if k = "unknown" then some ErrorType.unknown
  else none

/-- A value produced by the JS property read `COMPONENT_MAP[k]` for an
arbitrary string `k`: an own component list, a truthy non-array member
inherited from `Object.prototype` (e.g. the `toString` function), or
`undefined`. -/
inductive JsValue
  | arr (l : List String)
  | protoMember
  | undef
deriving DecidableEq

/-- The members every plain object literal inherits from
`Object.prototype` in Node: the standard ones plus the Annex B legacy
accessor helpers (`__defineGetter__`, `__defineSetter__`,
`__lookupGetter__`, `__lookupSetter__`), which V8 implements.  All of them
are truthy function or object values. -/
def objectProtoKeys : List String :=
  ["constructor", "hasOwnProperty", "isPrototypeOf", "propertyIsEnumerable",
   "toLocaleString", "toString", "valueOf", "__proto__",
   "__defineGetter__", "__defineSetter__", "__lookupGetter__", "__lookupSetter__"]

/-- JS property lookup `COMPONENT_MAP[k]` with a string key: own property
first, then the `Object.prototype` chain, then `undefined`. -/
def componentMapGet (k : String) : JsValue :=
  match keyToErrorType k with
  | some t => JsValue.arr (COMPONENT_MAP t)
  | none => if k ∈ objectProtoKeys then JsValue.protoMember else JsValue.undef

/-- JS truthiness of such a value: arrays and inherited function/object
members are truthy, `undefined` is falsy. -/
def jsValueTruthy : JsValue → Bool
  | JsValue.arr _ => true
  | JsValue.protoMember => true
  | JsValue.undef => false

/-- `MCPService.getSuggestedComponents` as executed at runtime when the
route layer passes an arbitrary string as `errorType`:
`COMPONENT_MAP[errorType] || COMPONENT_MAP.unknown`. -/
def getSuggestedComponentsJS (k : String) : JsValue :=
  let v := componentMapGet k
  if jsValueTruthy v then v else JsValue.arr (COMPONENT_MAP ErrorType.unknown)

/- ## Template strategy (MCPService.generateMockAnalysis, lines 340-564) -/

/-- The interpolation `${context.file || 'unknown file'}`: an absent or
empty (falsy) file yields the placeholder. -/
def jsFileOr (o : Option String) : String :=
  match o with
  | some s => if s == "" then "unknown file" else s
  | none => "unknown file"

/-- The interpolation `${context.line || 'unknown line'}`: an absent line or
line `0` (falsy) yields the placeholder. -/
def jsLineOr (o : Option Nat) : String :=
  match o with
  | some n => if n == 0 then "unknown line" else toString n
  | none => "unknown line"

/-- `MCPService.generateMockAnalysis`: the static per-ErrorType template
table (`analysisTemplates`).  The `category` argument is accepted and, as
in the source, never used.  The trailing
`analysisTemplates[errorType] || analysisTemplates.unknown` never falls
back for a well-typed `ErrorType`, since the table is exhaustive. -/
def generateMockAnalysis (context : ErrorContext) (errorType : ErrorType)
    (category : ErrorCategory) : AnalysisDraft :=
  match errorType with
  | ErrorType.null_pointer =>
    { rootCause := some ("Null/undefined reference detected at " ++ jsFileOr context.file ++ ":" ++ jsLineOr context.line ++ ". The variable being accessed is undefined at runtime.")
      explanation := some "This error occurs when trying to access a property on an undefined or null value. Common causes: 1) Data not loaded yet, 2) API response differs from expected, 3) User state not initialized."
      suggestedFix := some
        { code := "// Before (causes error)\nconst value = obj.nested.property;\n\n// After (safe access with fallback)\nconst value = obj?.nested?.property ?? defaultValue;\n\n// Or with explicit check\nif (obj?.nested) \x7b\n  const value = obj.nested.property;\n\x7d"
          description := "Use optional chaining (?.) and nullish coalescing (??) for safe property access."
          confidence := 92 }
      preventionTips := some ["Enable TypeScript strict mode", "Add proper loading states before accessing data", "Use defensive programming patterns", "Write unit tests for edge cases"]
      similarPatterns := some ["TypeError: Cannot read property \x27user\x27 (PR #234)", "Cannot access \x27profile\x27 of undefined (PR #189)"] }
  | ErrorType.api_timeout =>
    { rootCause := some "API request exceeded timeout threshold. Server unresponsive or network congestion detected."
      explanation := some "The request to your backend API took longer than the configured timeout. This usually indicates: 1) Server under heavy load, 2) Database query performance issues, 3) Network connectivity problems."
      suggestedFix := some
        { code := "// Add timeout handling and retry logic\nconst fetchWithRetry = async (url, options, retries = 3) => \x7b\n  for (let i = 0; i < retries; i++) \x7b\n    try \x7b\n      const controller = new AbortController();\n      const timeout = setTimeout(() => controller.abort(), 5000);\n      \n      const response = await fetch(url, \x7b\n        ...options,\n        signal: controller.signal,\n      \x7d);\n      clearTimeout(timeout);\n      return response;\n    \x7d catch (error) \x7b\n      if (i === retries - 1) throw error;\n      await new Promise(r => setTimeout(r, 1000 * (i + 1)));\n    \x7d\n  \x7d\n\x7d;"
          description := "Implement retry logic with exponential backoff and proper timeout handling."
          confidence := 85 }
      preventionTips := some ["Add proper timeout configuration", "Implement circuit breaker pattern", "Monitor API response times", "Add request queuing for heavy operations"]
      similarPatterns := some ["502 Gateway Timeout on /api/payments", "ETIMEDOUT on database queries"] }
  | ErrorType.auth_failure =>
    { rootCause := some "Authentication token expired or invalid. User session may have timed out."
      explanation := some "The user\x27s authentication credentials are no longer valid. This could be due to: 1) Token expiration, 2) User logged out elsewhere, 3) Token revocation, 4) Incorrect token format."
      suggestedFix := some
        { code := "// Implement token refresh logic\nconst refreshToken = async () => \x7b\n  const refreshToken = getRefreshToken();\n  if (!refreshToken) \x7b\n    redirectToLogin();\n    return;\n  \x7d\n  \n  try \x7b\n    const response = await fetch(\x27/api/auth/refresh\x27, \x7b\n      method: \x27POST\x27,\n      headers: \x7b \x27Authorization\x27: `Bearer $\x7brefreshToken\x7d` \x7d,\n    \x7d);\n    \n    if (response.ok) \x7b\n      const \x7b accessToken \x7d = await response.json();\n      setAccessToken(accessToken);\n      return accessToken;\n    \x7d\n  \x7d catch (error) \x7b\n    redirectToLogin();\n  \x7d\n\x7d;"
          description := "Implement automatic token refresh and graceful session expiration handling."
          confidence := 88 }
      preventionTips := some ["Implement automatic token refresh", "Add token expiration warnings", "Handle 401 responses globally", "Use secure token storage"]
      similarPatterns := some ["JWT token expired in checkout flow", "401 Unauthorized on protected routes"] }
  | ErrorType.db_error =>
    { rootCause := some "Database connection pool exhausted or query timeout. High database load detected."
      explanation := some "The database is struggling to handle the current load. Possible causes: 1) Connection pool exhausted, 2) Slow queries blocking connections, 3) Database server under strain."
      suggestedFix := some
        { code := "// Optimize database connection handling\nconst pool = new Pool(\x7b\n  max: 20, // Increase pool size\n  idleTimeoutMillis: 30000,\n  connectionTimeoutMillis: 2000,\n\x7d);\n\n// Add query timeout\nconst result = await pool.query(\x7b\n  text: \x27SELECT * FROM users WHERE id = $1\x27,\n  values: [userId],\n  timeout: 5000, // 5 second timeout\n\x7d);"
          description := "Increase connection pool size and add query timeouts to prevent blocking."
          confidence := 80 }
      preventionTips := some ["Monitor database connection pool", "Add query timeouts", "Optimize slow queries", "Consider read replicas for heavy loads"]
      similarPatterns := some ["Connection pool exhausted during peak", "Query timeout on users table"] }
  | ErrorType.cors_error =>
    { rootCause := some "Cross-Origin Resource Sharing (CORS) policy blocking request."
      explanation := some "The browser is blocking the request due to CORS restrictions."
      suggestedFix := some
        { code := "// Server-side: Allow CORS\napp.use(cors(\x7b\n  origin: [\x27https://yourdomain.com\x27, \x27http://localhost:5173\x27],\n  credentials: true,\n\x7d));"
          description := "Configure CORS on your backend to allow requests from your frontend domain."
          confidence := 95 }
      preventionTips := some ["Configure CORS properly", "Use same-origin when possible"]
      similarPatterns := some ["CORS blocked on API calls"] }
  | ErrorType.memory_leak =>
    { rootCause := some "Memory not being released properly, leading to increasing memory usage."
      explanation := some "Components or event listeners are not being cleaned up properly."
      suggestedFix := some
        { code := "// Clean up in useEffect\nuseEffect(() => \x7b\n  const handler = () => \x7b /* ... */ \x7d;\n  window.addEventListener(\x27resize\x27, handler);\n  \n  return () => \x7b\n    window.removeEventListener(\x27resize\x27, handler);\n  \x7d;\n\x7d, []);"
          description := "Always clean up event listeners and subscriptions in useEffect return."
          confidence := 85 }
      preventionTips := some ["Clean up side effects", "Use React DevTools Profiler"]
      similarPatterns := some ["Memory growing over time"] }
  | ErrorType.rate_limit =>
    { rootCause := some "API rate limit exceeded. Too many requests in short time period."
      explanation := some "Your application is making too many requests to the API."
      suggestedFix := some
        { code := "// Implement request throttling\nconst throttle = (func, limit) => \x7b\n  let inThrottle;\n  return (...args) => \x7b\n    if (!inThrottle) \x7b\n      func.apply(this, args);\n      inThrottle = true;\n      setTimeout(() => inThrottle = false, limit);\n    \x7d\n  \x7d;\n\x7d;"
          description := "Add request throttling and implement backoff strategies."
          confidence := 90 }
      preventionTips := some ["Implement request throttling", "Cache responses"]
      similarPatterns := some ["429 Too Many Requests"] }
  | ErrorType.websocket_error =>
    { rootCause := some "WebSocket connection lost unexpectedly."
      explanation := some "The real-time connection was interrupted."
      suggestedFix := some
        { code := "// Auto-reconnect WebSocket\nconst connect = () => \x7b\n  const ws = new WebSocket(url);\n  ws.onclose = () => setTimeout(connect, 1000);\n  return ws;\n\x7d;"
          description := "Implement automatic WebSocket reconnection with backoff."
          confidence := 88 }
      preventionTips := some ["Implement reconnection logic", "Add heartbeat pings"]
      similarPatterns := some ["WebSocket disconnected unexpectedly"] }
  | ErrorType.third_party_failure =>
    { rootCause := some "Third-party service returned an error or is unavailable."
      explanation := some "An external service your app depends on is having issues."
      suggestedFix := some
        { code := "// Add fallback for third-party failures\ntry \x7b\n  const result = await stripeAPI.createPayment(data);\n  return result;\n\x7d catch (error) \x7b\n  await notifyOnCall(\x27Stripe API failure\x27);\n  return \x7b error: \x27Payment service temporarily unavailable\x27 \x7d;\n\x7d"
          description := "Add graceful fallbacks and alerting for third-party failures."
          confidence := 75 }
      preventionTips := some ["Add service health checks", "Implement fallbacks"]
      similarPatterns := some ["Stripe API timeout", "S3 upload failed"] }
  | ErrorType.config_error =>
    { rootCause := some "Missing or incorrect configuration value."
      explanation := some "An environment variable or configuration is missing or invalid."
      suggestedFix := some
        { code := "// Validate config at startup\nconst requiredEnvVars = [\x27DATABASE_URL\x27, \x27API_KEY\x27];\nfor (const envVar of requiredEnvVars) \x7b\n  if (!process.env[envVar]) \x7b\n    throw new Error(`Missing required env var: $\x7benvVar\x7d`);\n  \x7d\n\x7d"
          description := "Add startup validation for required configuration."
          confidence := 95 }
      preventionTips := some ["Validate config at startup", "Use config schemas"]
      similarPatterns := some ["Undefined environment variable"] }
  | ErrorType.unknown =>
    { rootCause := some "Unable to automatically categorize this error."
      explanation := some "This error pattern is not recognized. Manual investigation recommended."
      suggestedFix := some
        { code := "// Add comprehensive error handling\ntry \x7b\n  // Your code\n\x7d catch (error) \x7b\n  console.error(\x27Unexpected error:\x27, error);\n  // Report to error tracking service\n  reportError(error);\n\x7d"
          description := "Add error handling and logging for investigation."
          confidence := 50 }
      preventionTips := some ["Add detailed logging", "Set up error monitoring"]
      similarPatterns := some [] }

/- ## Delegated strategy (MCPService.generateAIAnalysis, lines 270-313) -/

/-- JS truthiness of the `error` / `output` fields returned by the external
service: absent (`null`/`undefined`) or empty strings are falsy. -/
def jsTruthy : Option String → Bool
  | none => false
  | some s => !(s == "")

/-- The opening brace character. -/
def openBrace : Char := Char.ofNat 123

/-- The closing brace character. -/
def closeBrace : Char := Char.ofNat 125

/-- The prefix of `s` that ends at the last closing brace of `s`, if `s`
contains one.  This is how the greedy `[\s\S]*\x7d` tail of the extraction
regex behaves: it runs to the last closing brace of the whole text. -/
def takeToLastClose : List Char → Option (List Char)
  | [] => none
  | c :: cs =>
    match takeToLastClose cs with
    | some t => some (c :: t)
    | none => if c = closeBrace then some [c] else none

/-- `String(output).match(/\x7b[\s\S]*\x7d/)`: the leftmost-greedy match
runs from the first opening brace that still has a closing brace after it,
to the last closing brace of the text. -/
def extractJson : List Char → Option (List Char)
  | [] => none
  | c :: cs =>
    if c = openBrace then
      match takeToLastClose cs with
      | some t => some (openBrace :: t)
      | none => extractJson cs
    else
      extractJson cs

/-- One call to the external text-generation service (`model.run`): the
promise either rejects (a thrown transport/network error) or resolves to a
`\x7b error, output \x7d` pair. -/
inductive ServiceCall
  | threw
  | returned (error : Option String) (output : Option String)

/-- `MCPService.generateAIAnalysis` (lines 270-313).  `parseJson` models the
external `JSON.parse` builtin: `none` is a parse exception, `some d` is a
successfully parsed value of the response shape.  `clientSome` models
`this.bytezClient !== null`.  Every failure path of the `try` block lands on
`generateMockAnalysis(context, errorType, 'frontend')`. -/
def generateAIAnalysis (parseJson : String → Option AnalysisDraft)
    (clientSome : Bool) (svc : ServiceCall)
    (context : ErrorContext) (errorType : ErrorType) : AnalysisDraft :=
  let fallback := generateMockAnalysis context errorType ErrorCategory.frontend
  if clientSome = false then fallback
  else
    match svc with
    | ServiceCall.threw => fallback
    | ServiceCall.returned err out =>
      if jsTruthy err then fallback
      else if jsTruthy out then
        match extractJson (out.getD "").data with
        | some block =>
          match parseJson (String.mk block) with
          | some draft => draft
          | none => fallback
        | none => fallback
      else fallback

/- ## Result assembly (MCPService.analyzeError, lines 223-265) -/

/-- The string fallbacks `analysis.rootCause || '...'`: an absent or empty
field is falsy and is replaced by the default. -/
def jsStrOr (o : Option String) (d : String) : String :=
  match o with
  | some s => if s == "" then d else s
  | none => d

/-- The default `suggestedFix` used when the draft has none. -/
def defaultFix : SuggestedFix :=
  { code := "// Add error handling"
    description := "Add proper error handling for this case"
    confidence := 50 }

/-- `MCPService.analyzeError`.  `useRealAI` and `clientSome` model the
service configuration flags; `svc` and `parseJson` model the external
collaborators; `rnd` models the three `Math.random()` draws of the
estimated-impact placeholder (each `Math.floor(Math.random()*n)` becomes a
value reduced mod `n`). -/
def analyzeError (parseJson : String → Option AnalysisDraft)
    (useRealAI clientSome : Bool) (svc : ServiceCall)
    (rnd : Nat × Nat × Nat) (context : ErrorContext) : ErrorAnalysis :=
  let tc := identifyErrorType context.message context.stack
  let errorType := tc.1
  let category := tc.2
  let severity := calculateSeverity errorType context
  let suggestedComponents := getSuggestedComponents errorType
  let analysis :=
    if useRealAI && clientSome then
      generateAIAnalysis parseJson clientSome svc context errorType
    else
      generateMockAnalysis context errorType category
  { errorType := errorType
    category := category
    severity := severity
    suggestedComponents := suggestedComponents
    rootCause := jsStrOr analysis.rootCause "Unable to determine root cause"
    explanation := jsStrOr analysis.explanation "Further investigation required"
    suggestedFix := analysis.suggestedFix.getD defaultFix
    preventionTips := analysis.preventionTips.getD []
    similarPatterns := analysis.similarPatterns.getD []
    estimatedImpact :=
      { affectedUsers := rnd.1 % 100 + 10
        sessions := rnd.2.1 % 500 + 50
        revenue := rnd.2.2 % 20000 + 1000
        regionsAffected := ["US-East", "US-West"] } }

/- ## First balanced block, as the specification describes extraction -/

/-- Modelled from the spec: the scanner for a balanced brace block, carrying
the current nesting depth and the accumulated block. -/
def scanBalanced : Nat → List Char → List Char → Option (List Char)
  | _, _, [] => none
  | depth, acc, c :: cs =>
    if c = openBrace then scanBalanced (depth + 1) (acc ++ [c]) cs
    else if c = closeBrace then
      if depth = 1 then some (acc ++ [c])
      else scanBalanced (depth - 1) (acc ++ [c]) cs
    else scanBalanced depth (acc ++ [c]) cs

/-- Modelled from the spec: extraction of the first balanced brace block of
a text, per the specification words "extracting the first balanced
\x7b...\x7d block".  This is the comparison point for the extraction claim;
the source behaviour is `extractJson`. -/
def specFirstBalancedBlock : List Char → Option (List Char)
  | [] => none
  | c :: cs =>
    if c = openBrace then scanBalanced 1 [c] cs
    else specFirstBalancedBlock cs

/- ## Helper lemmas -/

/-- `findRule` returns the entry of the first matching rule: if rule `i`
matches and every earlier rule fails, the scan stops at `i`. -/
theorem findRule_first (rs : List ErrorRule) (s : List Char) :
    ∀ (i : Nat) (hi : i < rs.length),
      (rs.get ⟨i, hi⟩).pattern s = true →
      (∀ (j : Nat) (hj : j < rs.length), j < i → (rs.get ⟨j, hj⟩).pattern s = false) →
      findRule rs s = some ((rs.get ⟨i, hi⟩).type, (rs.get ⟨i, hi⟩).category) := by
  induction rs with
  | nil => intro i hi; exact absurd hi (Nat.not_lt_zero i)
  | cons r rs ih =>
    intro i hi hm he
    cases i with
    | zero =>
      simp only [List.get] at hm
      simp [findRule, hm]
    | succ i =>
      have h0 : r.pattern s = false := he 0 (Nat.succ_pos _) (Nat.succ_pos _)
      simp only [findRule, h0, Bool.false_eq_true, if_false]
      exact ih i (Nat.lt_of_succ_lt_succ hi) hm
        (fun j hj hji => he (j + 1) (Nat.succ_lt_succ hj) (Nat.succ_lt_succ hji))

/-- `findRule` returns `none` when no rule matches. -/
theorem findRule_none (rs : List ErrorRule) (s : List Char)
    (h : ∀ r ∈ rs, r.pattern s = false) : findRule rs s = none := by
  induction rs with
  | nil => rfl
  | cons r rs ih =>
    have h0 := h r (List.mem_cons_self r rs)
    simp only [findRule, h0, Bool.false_eq_true, if_false]
    exact ih (fun q hq => h q (List.mem_cons_of_mem r hq))

/-- Every entry of `COMPONENT_MAP` is a non-empty list. -/
theorem component_map_nonempty (t : ErrorType) : COMPONENT_MAP t ≠ [] := by
  cases t <;> decide

/- ## C1: first-match classification -/

/-- C1: `identifyErrorType` evaluates the ordered `ERROR_PATTERNS` rules
against the case-folded concatenation of message and stack trace and
returns the type and category of the first rule whose pattern matches; if
no rule matches it returns `(unknown, frontend)`. -/
theorem classify_first_rule_wins (msg : String) (st : Option String) :
    (∀ (i : Nat) (hi : i < ERROR_PATTERNS.length),
       (ERROR_PATTERNS.get ⟨i, hi⟩).pattern (combinedInput msg st) = true →
       (∀ (j : Nat) (hj : j < ERROR_PATTERNS.length), j < i →
          (ERROR_PATTERNS.get ⟨j, hj⟩).pattern (combinedInput msg st) = false) →
       identifyErrorType msg st =
         ((ERROR_PATTERNS.get ⟨i, hi⟩).type, (ERROR_PATTERNS.get ⟨i, hi⟩).category))
    ∧ ((∀ r ∈ ERROR_PATTERNS, r.pattern (combinedInput msg st) = false) →
       identifyErrorType msg st = (ErrorType.unknown, ErrorCategory.frontend)) := by
  constructor
  · intro i hi hm he
    have h := findRule_first ERROR_PATTERNS (combinedInput msg st) i hi hm he
    simp [identifyErrorType, h]
  · intro hnone
    have h := findRule_none ERROR_PATTERNS (combinedInput msg st) hnone
    simp [identifyErrorType, h]

/-- Witness for C1: the message "Cannot read property x" matches rule 0
(there are no earlier rules to fail), so classification returns
`(null_pointer, frontend)`. -/
theorem classify_first_rule_wins_check :
    identifyErrorType "Cannot read property x" none =
      (ErrorType.null_pointer, ErrorCategory.frontend) :=
  (classify_first_rule_wins "Cannot read property x" none).1 0 (by decide)
    (by decide) (fun j _ hj0 => absurd hj0 (Nat.not_lt_zero j))

/- ## C8: empty message -/

/-- C8: the empty message (with no stack trace) matches no rule, so
`identifyErrorType` returns `unknown` — classification is total and treats
empty input as an ordinary unmatched outcome. -/
theorem classify_empty_message :
    identifyErrorType "" none = (ErrorType.unknown, ErrorCategory.frontend) := by
  decide

/- ## C10: default category for unmatched input -/

/-- C10: whenever no classification rule matches the case-folded combined
input, `identifyErrorType` pairs `unknown` with the fixed default category
`frontend`. -/
theorem classify_unmatched_default (msg : String) (st : Option String)
    (h : ∀ r ∈ ERROR_PATTERNS, r.pattern (combinedInput msg st) = false) :
    identifyErrorType msg st = (ErrorType.unknown, ErrorCategory.frontend) := by
  have h2 := findRule_none ERROR_PATTERNS (combinedInput msg st) h
  simp [identifyErrorType, h2]

/-- Witness for C10: "hello world" matches none of the ten rules. -/
theorem classify_unmatched_default_check :
    identifyErrorType "hello world" none = (ErrorType.unknown, ErrorCategory.frontend) :=
  classify_unmatched_default "hello world" none (by decide)

/- ## C2: sensitive-path severity override -/

/-- C2: `calculateSeverity` returns `critical` for every ErrorType whenever
the context's file path contains "checkout", "payment" or "auth"; for every
other context it returns the static per-type default `severityMap`. -/
theorem severity_sensitive_path_override (t : ErrorType) (ctx : ErrorContext) :
    (∀ f, ctx.file = some f →
       (hasSub "checkout".data f.data = true ∨ hasSub "payment".data f.data = true ∨
        hasSub "auth".data f.data = true) →
       calculateSeverity t ctx = Severity.critical)
    ∧ ((∀ f, ctx.file = some f →
          hasSub "checkout".data f.data = false ∧ hasSub "payment".data f.data = false ∧
          hasSub "auth".data f.data = false) →
       calculateSeverity t ctx = severityMap t) := by
  constructor
  · intro f hf hc
    rcases hc with h | h | h <;> simp [calculateSeverity, jsOptIncludes, hf, h]
  · intro hnone
    cases hf : ctx.file with
    | none => simp [calculateSeverity, jsOptIncludes, hf]
    | some f =>
      rcases hnone f hf with ⟨h1, h2, h3⟩
      simp [calculateSeverity, jsOptIncludes, hf, h1, h2, h3]

/-- Witness for C2: a low-severity type in a checkout file is escalated. -/
theorem severity_sensitive_path_override_check :
    calculateSeverity ErrorType.cors_error
      { message := "m", stack := none, file := some "src/checkout/x.ts", line := none,
        column := none, environment := none, userId := none, sessionId := none,
        timestamp := none, metadata := [] } = Severity.critical :=
  (severity_sensitive_path_override ErrorType.cors_error _).1 "src/checkout/x.ts" rfl
    (Or.inl (by decide))

/- ## C6: recommended components are non-empty and fixed -/

/-- C6: `getSuggestedComponents` yields a non-empty list for every
ErrorType including `unknown`, and — being a pure lookup in the static
`COMPONENT_MAP` — the same enum key always reads the same list in the same
order, as witnessed at the JS property-lookup level as well. -/
theorem recommended_components_nonempty (t : ErrorType) :
    getSuggestedComponents t ≠ [] ∧
    getSuggestedComponentsJS (errorTypeKey t) = JsValue.arr (getSuggestedComponents t) := by
  cases t <;> exact ⟨by decide, by decide⟩

/- ## C9: string-keyed component lookup is not total -/

/-- C9 counterexample: the route layer passes the request's `errorType`
string straight through, and `COMPONENT_MAP["toString"]` finds the truthy
`Object.prototype.toString` function inherited by the object literal, so
`COMPONENT_MAP[k] || COMPONENT_MAP.unknown` keeps it: the result is not a
component list and is not the `unknown` fallback. -/
theorem components_proto_key_not_list :
    getSuggestedComponentsJS "toString" = JsValue.protoMember ∧
    JsValue.protoMember ≠ JsValue.arr (COMPONENT_MAP ErrorType.unknown) := by
  exact ⟨by decide, by decide⟩

/-- C9 amended: for every string key that is not the name of an inherited
`Object.prototype` member, `getSuggestedComponents` totally returns a
non-empty component list — the own entry for a recognized key, the
`unknown` default otherwise. -/
theorem components_total_nonproto (k : String) (h : k ∉ objectProtoKeys) :
    ∃ l, getSuggestedComponentsJS k = JsValue.arr l ∧ l ≠ [] := by
  cases ht : keyToErrorType k with
  | some t =>
    refine ⟨COMPONENT_MAP t, ?_, component_map_nonempty t⟩
    simp [getSuggestedComponentsJS, componentMapGet, ht, jsValueTruthy]
  | none =>
    refine ⟨COMPONENT_MAP ErrorType.unknown, ?_, component_map_nonempty ErrorType.unknown⟩
    simp [getSuggestedComponentsJS, componentMapGet, ht, h, jsValueTruthy]

/-- Witness for C9 amended: an arbitrary unrecognized string falls back to
the non-empty `unknown` component list. -/
theorem components_total_nonproto_check :
    ∃ l, getSuggestedComponentsJS "not-a-real-type" = JsValue.arr l ∧ l ≠ [] :=
  components_total_nonproto "not-a-real-type" (by decide)

/- ## C7: the checkout null-reference scenario -/

/-- The single-quote character, used to spell the scenario message. -/
def sq : String := String.mk [Char.ofNat 39]

/-- The scenario message
`TypeError: Cannot read property 'profile' of undefined`. -/
def c7msg : String :=
  "TypeError: Cannot read property " ++ sq ++ "profile" ++ sq ++ " of undefined"

/-- The scenario context: the message above, no stack trace, file
`src/checkout/processOrder.ts`. -/
def c7ctx : ErrorContext :=
  { message := c7msg, stack := none, file := some "src/checkout/processOrder.ts",
    line := none, column := none, environment := none, userId := none,
    sessionId := none, timestamp := none, metadata := [] }

/-- C7: on that context the pipeline classifies `null_pointer` in category
`frontend`, escalates severity to `critical` by the checkout-path override,
and recommends exactly [UserJourney, StackTrace, SimilarErrors,
SuggestedFix], whatever the advice strategy, external collaborators and
random impact draws. -/
theorem checkout_scenario (parseJson : String → Option AnalysisDraft)
    (useRealAI clientSome : Bool) (svc : ServiceCall) (rnd : Nat × Nat × Nat) :
    (analyzeError parseJson useRealAI clientSome svc rnd c7ctx).errorType =
      ErrorType.null_pointer ∧
    (analyzeError parseJson useRealAI clientSome svc rnd c7ctx).category =
      ErrorCategory.frontend ∧
    (analyzeError parseJson useRealAI clientSome svc rnd c7ctx).severity =
      Severity.critical ∧
    (analyzeError parseJson useRealAI clientSome svc rnd c7ctx).suggestedComponents =
      ["UserJourney", "StackTrace", "SimilarErrors", "SuggestedFix"] := by
  refine ⟨rfl, rfl, rfl, rfl⟩

/- ## C3: delegated strategy falls back to the template on any failure -/

/-- C3: whenever the delegated strategy fails in any of its ways — client
not initialized, the service call throws, the service reports a (truthy)
error, the output is falsy, the output contains no extractable JSON block,
or parsing throws — `generateAIAnalysis` returns exactly the Template
strategy output for the request; being a total function of its inputs, it
propagates no exception to `analyzeError`. -/
theorem advise_falls_back_on_failure (parseJson : String → Option AnalysisDraft)
    (clientSome : Bool) (svc : ServiceCall) (ctx : ErrorContext) (t : ErrorType)
    (h : clientSome = false ∨ svc = ServiceCall.threw ∨
         (∃ e out, svc = ServiceCall.returned e out ∧
            (jsTruthy e = true ∨ jsTruthy out = false ∨
             (∃ text, out = some text ∧
                (extractJson text.data = none ∨
                 (∃ block, extractJson text.data = some block ∧
                    parseJson (String.mk block) = none)))))) :
    generateAIAnalysis parseJson clientSome svc ctx t =
      generateMockAnalysis ctx t ErrorCategory.frontend := by
  rcases h with h | h | ⟨e, out, hsvc, h⟩
  · subst h; rfl
  · subst h; cases clientSome <;> rfl
  · subst hsvc
    cases clientSome with
    | false => rfl
    | true =>
      rcases h with h | h | ⟨text, hout, h⟩
      · simp [generateAIAnalysis, h]
      · simp [generateAIAnalysis, h]
      · subst hout
        rcases h with h | ⟨block, hb, hp⟩
        · simp [generateAIAnalysis, h]
        · simp [generateAIAnalysis, hb, hp]

/-- Witness for C3: a live client whose service answers plain prose with no
JSON object falls back to the template output. -/
theorem advise_falls_back_on_failure_check :
    generateAIAnalysis (fun _ => none) true
        (ServiceCall.returned none (some "no json here"))
        { message := "m", stack := none, file := none, line := none, column := none,
          environment := none, userId := none, sessionId := none, timestamp := none,
          metadata := [] } ErrorType.unknown =
      generateMockAnalysis
        { message := "m", stack := none, file := none, line := none, column := none,
          environment := none, userId := none, sessionId := none, timestamp := none,
          metadata := [] } ErrorType.unknown ErrorCategory.frontend :=
  advise_falls_back_on_failure (fun _ => none) true
    (ServiceCall.returned none (some "no json here")) _ ErrorType.unknown
    (Or.inr (Or.inr ⟨none, some "no json here", rfl,
      Or.inr (Or.inr ⟨"no json here", rfl, Or.inl (by decide)⟩)⟩))

/- ## C4: confidence range -/

/-- The draft fix carried by every template, and the assembly default, all
have confidence within [0, 100]. -/
theorem mock_fix_confidence_bound (ctx : ErrorContext) (t : ErrorType)
    (cat : ErrorCategory) :
    0 ≤ ((generateMockAnalysis ctx t cat).suggestedFix.getD defaultFix).confidence ∧
    ((generateMockAnalysis ctx t cat).suggestedFix.getD defaultFix).confidence ≤ 100 := by
  cases t <;> refine ⟨?_, ?_⟩ <;> norm_num [generateMockAnalysis]

/-- A parsed external response carrying an out-of-range confidence, exactly
as `JSON.parse` would produce it from `aiReplyText` below. -/
def overConfidentDraft : AnalysisDraft :=
  { rootCause := some "model text"
    explanation := some "model text"
    suggestedFix := some
      { code := "const x = 1;", description := "raw model output", confidence := 150 }
    preventionTips := some []
    similarPatterns := some [] }

/-- A service reply whose embedded JSON object carries confidence 150. -/
def aiReplyText : String :=
  "\x7b\"rootCause\":\"model text\",\"explanation\":\"model text\",\"suggestedFix\":\x7b\"code\":\"const x = 1;\",\"description\":\"raw model output\",\"confidence\":150\x7d,\"preventionTips\":[],\"similarPatterns\":[]\x7d"

set_option maxRecDepth 8000 in
/-- C4 counterexample: under the delegated strategy the parsed response is
returned as-is — `generateAIAnalysis` performs no validation or clamping —
so a reply whose JSON carries confidence 150 flows through `analyzeError`
with confidence 150, outside [0, 100]. -/
theorem confidence_unclamped_counterexample :
    ¬ ((analyzeError (fun _ => some overConfidentDraft) true true
          (ServiceCall.returned none (some aiReplyText)) (0, 0, 0)
          { message := "TypeError: x is undefined", stack := none, file := none,
            line := none, column := none, environment := none, userId := none,
            sessionId := none, timestamp := none,
            metadata := [] }).suggestedFix.confidence ≤ 100) := by
  decide

/-- C4 amended: under the Template strategy — the configuration with no
external AI, and equally the output every delegated failure falls back to —
the `suggestedFix.confidence` of `analyzeError` is always within [0, 100];
the delegated strategy itself does not validate or clamp a successfully
parsed response. -/
theorem template_confidence_in_range (parseJson : String → Option AnalysisDraft)
    (clientSome : Bool) (svc : ServiceCall) (rnd : Nat × Nat × Nat)
    (ctx : ErrorContext) :
    0 ≤ (analyzeError parseJson false clientSome svc rnd ctx).suggestedFix.confidence ∧
    (analyzeError parseJson false clientSome svc rnd ctx).suggestedFix.confidence ≤ 100 := by
  have h := mock_fix_confidence_bound ctx (identifyErrorType ctx.message ctx.stack).1
    (identifyErrorType ctx.message ctx.stack).2
  constructor
  · simpa only [analyzeError, Bool.false_and, Bool.false_eq_true, if_false] using h.1
  · simpa only [analyzeError, Bool.false_and, Bool.false_eq_true, if_false] using h.2

/- ## C5: what the extraction regex actually extracts -/

/-- Text before the first opening brace is skipped by the extraction. -/
theorem extractJson_skip (u s : List Char) (hu : openBrace ∉ u) :
    extractJson (u ++ s) = extractJson s := by
  induction u with
  | nil => rfl
  | cons c u ih =>
    rw [List.mem_cons, not_or] at hu
    have hc : c ≠ openBrace := fun h => hu.1 h.symm
    simp only [List.cons_append, extractJson, hc, if_false]
    exact ih hu.2

/-- A text without a closing brace has no last closing brace. -/
theorem takeToLastClose_none (v : List Char) (hv : closeBrace ∉ v) :
    takeToLastClose v = none := by
  induction v with
  | nil => rfl
  | cons c v ih =>
    rw [List.mem_cons, not_or] at hv
    have hc : c ≠ closeBrace := fun h => hv.1 h.symm
    simp [takeToLastClose, ih hv.2, hc]

/-- When everything after position `m` holds no further closing brace, the
greedy tail stops exactly at that closing brace. -/
theorem takeToLastClose_last (m v : List Char) (hv : closeBrace ∉ v) :
    takeToLastClose (m ++ closeBrace :: v) = some (m ++ [closeBrace]) := by
  induction m with
  | nil => simp [takeToLastClose, takeToLastClose_none v hv]
  | cons c m ih => simp [takeToLastClose, ih]

/-- Text before the first opening brace is skipped by the balanced-block
extraction as well. -/
theorem specBlock_skip (u s : List Char) (hu : openBrace ∉ u) :
    specFirstBalancedBlock (u ++ s) = specFirstBalancedBlock s := by
  induction u with
  | nil => rfl
  | cons c u ih =>
    rw [List.mem_cons, not_or] at hu
    have hc : c ≠ openBrace := fun h => hu.1 h.symm
    simp only [List.cons_append, specFirstBalancedBlock, hc, if_false]
    exact ih hu.2

/-- Scanning a brace-free body at depth 1 closes at the next closing
brace. -/
theorem scanBalanced_flat (m : List Char) :
    ∀ (acc v : List Char), openBrace ∉ m → closeBrace ∉ m →
      scanBalanced 1 acc (m ++ closeBrace :: v) = some (acc ++ m ++ [closeBrace]) := by
  induction m with
  | nil =>
    intro acc v _ _
    have h : closeBrace ≠ openBrace := by decide
    simp [scanBalanced, h]
  | cons c m ih =>
    intro acc v hm1 hm2
    rw [List.mem_cons, not_or] at hm1 hm2
    have hc1 : c ≠ openBrace := fun h => hm1.1 h.symm
    have hc2 : c ≠ closeBrace := fun h => hm2.1 h.symm
    simp only [List.cons_append, scanBalanced, hc1, hc2, if_false, List.append_eq]
    rw [ih (acc ++ [c]) v hm1.2 hm2.2]
    simp

/-- A service reply with two JSON objects separated by prose: the greedy
regex span is not the first balanced block. -/
def c5text : String := "The fix: \x7b\"a\":1\x7d. Also \x7b\"b\":2\x7d thanks."

/-- C5 counterexample: on `c5text` the source extraction (`extractJson`,
embedding `/\x7b[\s\S]*\x7d/`) spans from the first opening brace to the
last closing brace — swallowing the prose and the second object — and so
differs from the first balanced block the specification describes. -/
theorem extract_not_first_balanced :
    extractJson c5text.data ≠ specFirstBalancedBlock c5text.data ∧
    specFirstBalancedBlock c5text.data = some "\x7b\"a\":1\x7d".data ∧
    extractJson c5text.data = some "\x7b\"a\":1\x7d. Also \x7b\"b\":2\x7d".data := by
  exact ⟨by decide, by decide, by decide⟩

/-- C5 amended: the delegated strategy extracts the span from the first
opening brace to the last closing brace of the reply (the greedy match),
tolerating and ignoring prose strictly before the first opening brace and
prose without closing braces after; when the reply contains exactly one
brace-free-bodied JSON object, that span coincides with the first balanced
block of the specification. -/
theorem extract_greedy_span (u m v : List Char)
    (hu : openBrace ∉ u) (hv : closeBrace ∉ v) :
    extractJson (u ++ (openBrace :: (m ++ (closeBrace :: v)))) =
      some (openBrace :: (m ++ [closeBrace])) ∧
    (openBrace ∉ m → closeBrace ∉ m →
      specFirstBalancedBlock (u ++ (openBrace :: (m ++ (closeBrace :: v)))) =
        some (openBrace :: (m ++ [closeBrace]))) := by
  constructor
  · rw [extractJson_skip u _ hu]
    simp [extractJson, takeToLastClose_last m v hv]
  · intro hm1 hm2
    rw [specBlock_skip u _ hu]
    simp only [specFirstBalancedBlock, if_pos rfl]
    rw [scanBalanced_flat m [openBrace] v hm1 hm2]
    simp

/-- Witness for C5 amended: prose before the object and brace-free prose
after it are ignored, and the single object is extracted. -/
theorem extract_greedy_span_check :
    extractJson ("note ".data ++ (openBrace :: ("\"k\":0".data ++ (closeBrace :: " tail".data)))) =
      some (openBrace :: ("\"k\":0".data ++ [closeBrace])) :=
  (extract_greedy_span "note ".data "\"k\":0".data " tail".data (by decide) (by decide)).1

end ErrorIQ
